import Mathlib

/-!
Shallow embedding of the core of the win-bt-stereo-vs-handsfree repository
(process-termination guard, audio mode detection, monitor loop, capture
session muting, and Bluetooth device name matching), together with theorems
settling the specification claims about it.

Each definition is a direct translation of the corresponding Rust function;
platform (Win32/COM) calls are modelled as explicit inputs: a fallible
platform read becomes an `Option`, a platform success/failure becomes a
`Bool` oracle supplied to the function.
-/

namespace BtSpec

/-! ## String primitives

The Rust code uses `str::to_lowercase`, `str::trim` and `str::contains`.
They are modelled character-wise (ASCII lowering, as every string the
program compares is ASCII), so that the kernel can evaluate them. -/

/-- Rust `str::to_lowercase` (ASCII fragment). -/
def toLowerStr (s : String) : String := String.mk (s.data.map Char.toLower)

/-- Rust `str::trim`: drop whitespace from both ends. -/
def trimStr (s : String) : String :=
  String.mk
    (((s.data.dropWhile (·.isWhitespace)).reverse.dropWhile
      (·.isWhitespace)).reverse)

/-- Does the character list start with the given pattern? -/
def startsWithChars : List Char → List Char → Bool
  | [], _ => true
  | _ :: _, [] => false
  | p :: ps, c :: cs => p == c && startsWithChars ps cs

/-- Does the character list contain the pattern as a contiguous sublist? -/
def containsChars (pattern : List Char) : List Char → Bool
  | [] => pattern.isEmpty
  | c :: cs => startsWithChars pattern (c :: cs) || containsChars pattern cs

/-- Rust `str::contains` with a string pattern: substring test. -/
def containsStr (haystack pattern : String) : Bool :=
  containsChars pattern.data haystack.data

/-! ## Process guard: blacklist (src/process.rs) -/

/-- `SYSTEM_PROCESS_BLACKLIST` from src/process.rs. -/
def SYSTEM_PROCESS_BLACKLIST : List String :=
  ["csrss.exe", "winlogon.exe", "lsass.exe", "services.exe", "smss.exe",
   "wininit.exe", "svchost.exe", "dwm.exe", "explorer.exe", "system",
   "registry"]

/-- `ProcessManager::is_blacklisted`: lowercase the name and test exact
equality against each blacklist entry. -/
def is_blacklisted (process_name : String) : Bool :=
  let lower_name := toLowerStr process_name
  SYSTEM_PROCESS_BLACKLIST.any (fun blocked => lower_name == blocked)

/-! ## Process guard: audit log (src/process.rs) -/

/-- `TerminationOutcome` from src/process.rs. -/
inductive TerminationOutcome where
  | Success
  | Blocked
  | Failed
  | UserCancelled
  | ElevationRequired
deriving DecidableEq, Repr

/-- `TerminationAttempt` from src/process.rs (the timestamp is dropped:
it is wall-clock data with no bearing on any claim). -/
structure TerminationAttempt where
  process_id : Nat
  process_name : String
  outcome : TerminationOutcome
  reason : String
deriving DecidableEq, Repr

/-- `ProcessManager::log_attempt` acting on the audit-log vector: push the
new entry, then drop the oldest entry if the length exceeds 100. -/
def log_attempt (log : List TerminationAttempt) (attempt : TerminationAttempt) :
    List TerminationAttempt :=
  if (log ++ [attempt]).length > 100 then (log ++ [attempt]).tail
  else log ++ [attempt]

/-! ## Process guard: validation and termination (src/process.rs)

Platform calls are modelled as oracles carried by `ProcEnv`; the
observable side effects (TerminateProcess, ShellExecuteW) are recorded as
`TermAction`s so that the theorems can speak about what the code actually
did. -/

/-- `MicUsingApp` from src/audio/session.rs. -/
structure MicUsingApp where
  process_id : Nat
  process_name : String
  display_name : String
  icon_path : Option String
  is_muted : Bool
  is_using_bluetooth_mic : Bool
deriving DecidableEq, Repr

/-- Observable platform actions of the termination paths. -/
inductive TermAction where
  /-- TerminateProcess was invoked on this pid. -/
  | terminate (pid : Nat)
  /-- ShellExecuteW launched the elevated helper for this pid. -/
  | spawnElevated (pid : Nat)
deriving DecidableEq, Repr

/-- Platform state and oracles seen by `ProcessManager`. -/
structure ProcEnv where
  /-- Toolhelp process snapshot: (pid, executable name). -/
  procs : List (Nat × String)
  /-- The mic-using-apps snapshot read under the operation lock. -/
  micApps : List MicUsingApp
  /-- Outcome of the SID check `is_system_process` (its internal
  fail-closed/fail-open handling folded into the returned Bool). -/
  isSystem : Nat → Bool
  /-- Outcome of `is_elevated_process` with `unwrap_or(true)` applied. -/
  isElevated : Nat → Bool
  /-- Answer of the confirmation MessageBox. -/
  confirm : Bool
  /-- Answer of the elevation-required MessageBox. -/
  elevConfirm : Bool
  /-- Success of std::env::current_exe. -/
  exeOk : Bool
  /-- Success of ShellExecuteW (return value above 32). -/
  shellOk : Bool
  /-- Success of OpenProcess with PROCESS_TERMINATE. -/
  canOpenTerminate : Nat → Bool
  /-- Success of TerminateProcess. -/
  terminateOk : Nat → Bool

/-- `ProcessManager::get_process_name`: first snapshot entry with the pid. -/
def get_process_name (procs : List (Nat × String)) (process_id : Nat) :
    Option String :=
  (procs.find? (fun p => p.1 == process_id)).map (·.2)

/-- `ProcessManager::validate_termination`: name lookup, blacklist, SYSTEM
check, elevation probe, then membership in the mic-using snapshot. -/
def validate_termination (env : ProcEnv) (process_id : Nat) :
    Except String (String × Bool) :=
  match get_process_name env.procs process_id with
  | none => .error ("Could not find process with ID " ++ toString process_id)
  | some process_name =>
    if is_blacklisted process_name then
      .error ("Process " ++ process_name ++
        " is a protected system process and cannot be terminated")
    else if env.isSystem process_id then
      .error ("Process " ++ process_name ++
        " is running as SYSTEM and cannot be terminated")
    else
      let needs_elevation := env.isElevated process_id
      let in_mic_list :=
        env.micApps.any (fun app => app.process_id == process_id)
      if in_mic_list then .ok (process_name, needs_elevation)
      else .error ("Process " ++ process_name ++
        " is not currently using the microphone")

/-- Joint outcome of a `terminate_process` call: its result, the audit
entries it appended, and the platform actions it performed. -/
structure TermRun where
  result : Except String Unit
  log : List TerminationAttempt
  actions : List TermAction

/-- `ProcessManager::do_terminate`: open the process, invoke
TerminateProcess, log the outcome. -/
def do_terminate (env : ProcEnv) (process_id : Nat) (process_name : String) :
    TermRun :=
  if env.canOpenTerminate process_id then
    if env.terminateOk process_id then
      { result := .ok ()
        log := [⟨process_id, process_name, .Success,
          "Process terminated successfully"⟩]
        actions := [.terminate process_id] }
    else
      { result := .error ("Failed to terminate process " ++ process_name)
        log := [⟨process_id, process_name, .Failed, "TerminateProcess failed"⟩]
        actions := [.terminate process_id] }
  else
    { result := .error ("Failed to open process " ++ process_name)
      log := [⟨process_id, process_name, .Failed, "OpenProcess failed"⟩]
      actions := [] }

/-- `ProcessManager::terminate_with_elevation`: elevation dialog, resolve
the executable path, spawn the elevated helper via ShellExecuteW. -/
def terminate_with_elevation (env : ProcEnv) (process_id : Nat) :
    Except String Unit × List TermAction :=
  if env.elevConfirm then
    if env.exeOk then
      if env.shellOk then (.ok (), [.spawnElevated process_id])
      else (.error "Failed to launch elevated helper", [])
    else (.error "Could not get executable path", [])
  else (.ok (), [])

/-- `ProcessManager::terminate_process`: full validation under the
operation lock, then confirmation, elevation hand-off or local
termination, with every outcome audit-logged. -/
def terminate_process (env : ProcEnv) (process_id : Nat)
    (show_dialog : Bool) : TermRun :=
  match validate_termination env process_id with
  | .error e =>
    { result := .error e
      log := [⟨process_id,
        (get_process_name env.procs process_id).getD
          ("PID " ++ toString process_id),
        .Blocked, e⟩]
      actions := [] }
  | .ok (process_name, needs_elevation) =>
    if show_dialog && !env.confirm then
      { result := .ok ()
        log := [⟨process_id, process_name, .UserCancelled,
          "User cancelled termination dialog"⟩]
        actions := [] }
    else if needs_elevation then
      let r := terminate_with_elevation env process_id
      { result := r.1
        log := [⟨process_id, process_name, .ElevationRequired,
          "Process requires elevation to terminate"⟩]
        actions := r.2 }
    else do_terminate env process_id process_name

/-- `ProcessManager::handle_elevated_termination`: the elevated invocation
re-runs every check from scratch against a freshly enumerated mic-using
list. `ndOk` is the success of `CaptureSessionManager::new_default`;
`micAppsRes` the result of `get_mic_using_apps` (a failure falls back to
the empty list via `unwrap_or_default`). -/
def handle_elevated_termination (ndOk : Bool)
    (micAppsRes : Option (List MicUsingApp)) (isSys : Bool) (confirm : Bool)
    (canOpen : Bool) (termOk : Bool) (requested_pid : Nat) :
    Except String Unit × List TermAction :=
  if ndOk then
    match (micAppsRes.getD []).find?
        (fun app => app.process_id == requested_pid) with
    | none => (.error ("Process " ++ toString requested_pid ++
        " is not currently using the microphone"), [])
    | some app =>
      if is_blacklisted app.process_name then
        (.error ("Process " ++ app.process_name ++
          " is a protected system process"), [])
      else if isSys then
        (.error ("Process " ++ app.process_name ++ " is running as SYSTEM"),
          [])
      else if confirm then
        if canOpen then
          if termOk then (.ok (), [.terminate requested_pid])
          else (.error ("Failed to terminate process " ++ app.process_name),
            [.terminate requested_pid])
        else (.error ("Failed to open process " ++ app.process_name), [])
      else (.ok (), [])
  else (.error "Could not verify mic-using applications", [])

/-- Is the Except an error? -/
def exceptIsErr {α : Type} : Except String α → Bool
  | .error _ => true
  | .ok _ => false

/-- A concrete environment: pid 7 is a real process but is absent from the
mic-using snapshot. -/
def sampleEnv : ProcEnv where
  procs := [(7, "foo.exe")]
  micApps := []
  isSystem := fun _ => false
  isElevated := fun _ => false
  confirm := true
  elevConfirm := true
  exeOk := true
  shellOk := true
  canOpenTerminate := fun _ => true
  terminateOk := fun _ => true

/-- A concrete fresh mic-using list for the elevated-invocation witness. -/
def sampleMicApps : List MicUsingApp :=
  [⟨7, "foo.exe", "Foo", none, false, false⟩]

/-- A concrete audit entry for the audit-log witness. -/
def sampleAttempt : TerminationAttempt :=
  ⟨1, "app.exe", .Success, "ok"⟩

/-! ## Audio mode and format heuristic (src/audio/device.rs) -/

/-- `AudioMode` from src/audio/device.rs. -/
inductive AudioMode where
  | Stereo
  | HandsFree
  | Unknown
deriving DecidableEq, Repr

/-- `BluetoothAudioDevice::detect_mode_from_format`, as the pure function
from the optional sample rate and channel count to the mode it stores. -/
def detect_mode_from_format (sample_rate : Option Nat) (channels : Option Nat) :
    AudioMode :=
  match sample_rate, channels with
  | some rate, some ch =>
      if rate ≤ 16000 || ch == 1 then AudioMode.HandsFree else AudioMode.Stereo
  | _, _ => AudioMode.Unknown

/-! ## Device enumeration and mode polling (src/audio/device.rs,
src/audio/monitor.rs)

One poll sees a list of active render endpoints. For each endpoint the
platform reads are data: `raw` is the (id, friendly-name) pair when the
conversion in `device_to_audio_device` succeeds (`none` = GetId failed and
the endpoint is skipped), `format` the GetMixFormat result, `meter` the
GetMeteringChannelCount result. -/

/-- Raw platform data of one active render endpoint. -/
structure RenderEndpoint where
  raw : Option (String × String)
  format : Option (Nat × Nat)
  meter : Option Nat
deriving DecidableEq, Repr

/-- `AudioDevice` from src/audio/device.rs. -/
structure AudioDevice where
  id : String
  name : String
  is_bluetooth : Bool
deriving DecidableEq, Repr

/-- The Bluetooth classification test in
`DeviceManager::device_to_audio_device` (case-insensitive substring
markers on the id and the friendly name). -/
def classify_bluetooth (id name : String) : Bool :=
  let id_lower := toLowerStr id
  let name_lower := toLowerStr name
  containsStr id_lower "bluetooth"
    || containsStr name_lower "bluetooth"
    || containsStr id_lower "bth"
    || containsStr id_lower "\x7b0000110b"
    || containsStr id_lower "\x7b0000111e"
    || containsStr name_lower "headset"
    || containsStr name_lower "headphone"
    || containsStr name_lower "earbuds"
    || containsStr name_lower "airpods"
    || containsStr name_lower "buds"

/-- `DeviceManager::device_to_audio_device`: fails exactly when GetId
failed; classifies the endpoint as Bluetooth from its id and name. -/
def device_to_audio_device (raw : Option (String × String)) :
    Option AudioDevice :=
  raw.map (fun p => ⟨p.1, p.2, classify_bluetooth p.1 p.2⟩)

/-- `BluetoothAudioDevice` from src/audio/device.rs. -/
structure BluetoothAudioDevice where
  device : AudioDevice
  current_mode : AudioMode
  supports_stereo : Bool
  supports_handsfree : Bool
  sample_rate : Option Nat
  channels : Option Nat
deriving DecidableEq, Repr

/-- `BluetoothAudioDevice::new`. -/
def BluetoothAudioDevice.new (device : AudioDevice) : BluetoothAudioDevice :=
  ⟨device, .Unknown, true, true, none, none⟩

/-- `DeviceManager::enumerate_devices_with_format`: a conversion failure
skips the endpoint; a format read failure keeps the endpoint with its
default fields (no format, Unknown mode); a format success stores the
format and runs `detect_mode_from_format`. -/
def enumerate_devices_with_format (eps : List RenderEndpoint) :
    List BluetoothAudioDevice :=
  eps.filterMap (fun ep =>
    (device_to_audio_device ep.raw).map (fun ad =>
      match ep.format with
      | some f =>
        { device := ad
          current_mode := detect_mode_from_format (some f.1) (some f.2)
          supports_stereo := true
          supports_handsfree := true
          sample_rate := some f.1
          channels := some f.2 }
      | none => BluetoothAudioDevice.new ad))

/-- `DeviceManager::get_bluetooth_devices`. -/
def get_bluetooth_devices (eps : List RenderEndpoint) :
    List BluetoothAudioDevice :=
  (enumerate_devices_with_format eps).filter (fun d => d.device.is_bluetooth)

/-- `DeviceManager::is_bluetooth_device_in_hfp_mode`: scan the render
endpoints in order; the first Bluetooth endpoint whose meter read succeeds
decides (channel count 1 = HFP); meter failures and non-Bluetooth
endpoints are skipped; with no successful read the answer is None. -/
def is_bluetooth_device_in_hfp_mode : List RenderEndpoint → Option Bool
  | [] => none
  | ep :: rest =>
    match device_to_audio_device ep.raw with
    | some ad =>
      if ad.is_bluetooth then
        match ep.meter with
        | some channels => some (channels == 1)
        | none => is_bluetooth_device_in_hfp_mode rest
      else is_bluetooth_device_in_hfp_mode rest
    | none => is_bluetooth_device_in_hfp_mode rest

/-- The mode computation inside `poll_audio_state`
(src/audio/monitor.rs): Unknown with no Bluetooth device, else the
meter-based HFP test, else the Bluetooth-mic-in-use fallback. -/
def poll_mode (eps : List RenderEndpoint)
    (mic_apps : List MicUsingApp) : AudioMode :=
  if (get_bluetooth_devices eps).isEmpty then AudioMode.Unknown
  else
    match is_bluetooth_device_in_hfp_mode eps with
    | some true => AudioMode.HandsFree
    | some false => AudioMode.Stereo
    | none =>
      if mic_apps.any (fun app => app.is_using_bluetooth_mic) then
        AudioMode.HandsFree
      else AudioMode.Stereo

/-- `poll_audio_state` from src/audio/monitor.rs. The mic-using apps list
(the result of `get_all_mic_using_apps`) is an input. Returns the computed
mode, the mic apps, and the Bluetooth devices with `current_mode`
overwritten to the detected overall mode. -/
def poll_audio_state (eps : List RenderEndpoint)
    (mic_apps : List MicUsingApp) :
    AudioMode × List MicUsingApp × List BluetoothAudioDevice :=
  (poll_mode eps mic_apps, mic_apps,
    (get_bluetooth_devices eps).map
      (fun d => { d with current_mode := poll_mode eps mic_apps }))

/-- The meter readings of the Bluetooth render endpoints, in scan order
(only endpoints that convert, classify as Bluetooth, and whose meter read
succeeds contribute). -/
def bt_meter_readings (eps : List RenderEndpoint) : List Nat :=
  eps.filterMap (fun ep =>
    match device_to_audio_device ep.raw with
    | some ad => if ad.is_bluetooth then ep.meter else none
    | none => none)

/-- Modelled from the claim wording of C4: the meter of the FIRST
Bluetooth render endpoint found decides (1 = HandsFree, at least 2 =
Stereo); a failed or inconclusive meter read falls back to the
Bluetooth-mic-in-use test. For comparison with `poll_audio_state`. -/
def claimC4_mode (eps : List RenderEndpoint)
    (mic_apps : List MicUsingApp) : AudioMode :=
  let fallback :=
    if mic_apps.any (fun app => app.is_using_bluetooth_mic) then
      AudioMode.HandsFree
    else AudioMode.Stereo
  if (get_bluetooth_devices eps).isEmpty then AudioMode.Unknown
  else
    match eps.find? (fun ep =>
        match device_to_audio_device ep.raw with
        | some ad => ad.is_bluetooth
        | none => false) with
    | some ep =>
      match ep.meter with
      | some c =>
        if c == 1 then AudioMode.HandsFree
        else if 2 ≤ c then AudioMode.Stereo
        else fallback
      | none => fallback
    | none => fallback

/-- Modelled from the claim wording of C9: an endpoint whose format read
fails is skipped from the returned list. For comparison with
`enumerate_devices_with_format`. -/
def claimC9_enumerate (eps : List RenderEndpoint) :
    List BluetoothAudioDevice :=
  eps.filterMap (fun ep =>
    (device_to_audio_device ep.raw).bind (fun ad =>
      ep.format.map (fun f =>
        { device := ad
          current_mode := detect_mode_from_format (some f.1) (some f.2)
          supports_stereo := true
          supports_handsfree := true
          sample_rate := some f.1
          channels := some f.2 })))

/-- Concrete endpoints for the C4 counterexample: the first Bluetooth
endpoint has a failing meter read, the second reads one channel. -/
def c4eps : List RenderEndpoint :=
  [⟨some ("bth1", "devA"), none, none⟩, ⟨some ("bth2", "devB"), none, some 1⟩]

/-- Concrete endpoint list for the C9 counterexample: one endpoint whose
format read fails. -/
def c9eps : List RenderEndpoint := [⟨some ("bth1", "devA"), none, none⟩]

/-! ## Monitor loop events (src/audio/monitor.rs)

The loop body tracks `last_mode`, polls, and emits events; one poll is
modelled by its outcome: `some mode` when `poll_audio_state` succeeded
with that overall mode, `none` when it returned an error. -/

/-- The monitor events relevant to the poll part of the loop body
(`StateUpdate` reduced to the mode it carries). -/
inductive MonitorEvent where
  | StateUpdate (mode : AudioMode)
  | ModeChanged (old_mode new_mode : AudioMode)
  | ErrorEv
deriving DecidableEq, Repr

/-- One iteration of the poll section of `monitor_thread`: on success,
emit ModeChanged when the mode differs from `last_mode` and `last_mode`
is not Unknown, update `last_mode`, then emit StateUpdate; on a poll
error emit Error and keep `last_mode`. -/
def monitor_step (last_mode : AudioMode) :
    Option AudioMode → AudioMode × List MonitorEvent
  | some mode =>
    (mode,
      (if mode ≠ last_mode ∧ last_mode ≠ AudioMode.Unknown then
        [MonitorEvent.ModeChanged last_mode mode]
      else []) ++ [MonitorEvent.StateUpdate mode])
  | none => (last_mode, [MonitorEvent.ErrorEv])

/-- The per-iteration event lists of the monitor loop over a sequence of
poll outcomes, starting from `last_mode`. -/
def monitor_trace (last_mode : AudioMode) :
    List (Option AudioMode) → List (List MonitorEvent)
  | [] => []
  | p :: ps =>
    (monitor_step last_mode p).2 ::
      monitor_trace (monitor_step last_mode p).1 ps

/-- The tracked `last_mode` after processing a sequence of poll
outcomes. -/
def last_mode_after (last_mode : AudioMode) :
    List (Option AudioMode) → AudioMode
  | [] => last_mode
  | p :: ps => last_mode_after (monitor_step last_mode p).1 ps

/-- A concrete poll sequence for the monitor-loop witness. -/
def samplePolls : List (Option AudioMode) :=
  [some AudioMode.Stereo, some AudioMode.HandsFree]

/-! ## Capture session muting (src/audio/session.rs, src/audio/monitor.rs)

A capture endpoint carries its list of audio sessions and whether session
enumeration (`GetSessionEnumerator`/`GetCount` inside
`get_active_sessions`) succeeds on it; a session carries the owning pid,
its activity state, whether a volume control is available
(`ISimpleAudioVolume` obtained), and its mute flag. -/

/-- One WASAPI audio session of a capture endpoint. -/
structure Session where
  pid : Nat
  active : Bool
  canMute : Bool
  muted : Bool
deriving DecidableEq, Repr

/-- One capture endpoint: `enumOk` is the success of the fallible session
enumeration in `CaptureSessionManager::get_active_sessions` (a failure
there makes every mute/unmute/mute_all call on this endpoint error before
touching any session). -/
structure CaptureDevice where
  enumOk : Bool
  sessions : List Session
deriving DecidableEq, Repr

/-- `AudioSession::set_muted`: errors when no volume control is
available. -/
def set_muted (s : Session) (muted : Bool) : Option Session :=
  if s.canMute then some { s with muted := muted } else none

/-- The session walk inside `CaptureSessionManager::mute_app` /
`unmute_app`: the first ACTIVE session owned by the pid gets `set_muted b`
(whose error propagates) and the walk stops; with no active matching
session the walk errors. Walking the unfiltered list while skipping
inactive sessions is the same walk the Rust code does over the
active-filtered list, and keeps the endpoint state in one piece. -/
def mute_app_walk (b : Bool) (process_id : Nat) :
    List Session → Option (List Session)
  | [] => none
  | s :: rest =>
    if s.active && s.pid == process_id then
      match set_muted s b with
      | some s2 => some (s2 :: rest)
      | none => none
    else (mute_app_walk b process_id rest).map (fun r => s :: r)

/-- `CaptureSessionManager::mute_app` / `unmute_app` on one endpoint:
`get_active_sessions()?` first (an enumeration failure is an error), then
the session walk. -/
def mute_app_on_device (b : Bool) (process_id : Nat) (d : CaptureDevice) :
    Option CaptureDevice :=
  if d.enumOk then
    (mute_app_walk b process_id d.sessions).map
      (fun l => { d with sessions := l })
  else none

/-- The best-effort loop inside `CaptureSessionManager::mute_all`: mute
every active session with a nonzero pid; `set_muted` errors are
ignored. -/
def mute_all_sessions (sessions : List Session) : List Session :=
  sessions.map (fun s =>
    if s.active && s.pid != 0 && s.canMute then { s with muted := true }
    else s)

/-- `CaptureSessionManager::mute_all`: `get_active_sessions()?` first (an
enumeration failure is an error and nothing is muted), then the
best-effort loop, then Ok. -/
def mute_all (d : CaptureDevice) : Option CaptureDevice :=
  if d.enumOk then some { d with sessions := mute_all_sessions d.sessions }
  else none

/-- `CaptureSessionManager::mute_app_on_all_devices` (and its unmute
twin): try every capture endpoint, ignoring per-endpoint failures (a
failed endpoint keeps its state); the flag records whether any endpoint
succeeded. Endpoints whose activation (`new_for_device`) fails are
skipped by the Rust loop and behave like a failing `mute_app`, so they
are not modelled separately. -/
def mute_app_on_all_devices (b : Bool) (process_id : Nat) :
    List CaptureDevice → Bool × List CaptureDevice
  | [] => (false, [])
  | d :: rest =>
    let tail := mute_app_on_all_devices b process_id rest
    match mute_app_on_device b process_id d with
    | some d2 => (true, d2 :: tail.2)
    | none => (tail.1, d :: tail.2)

/-- The result of `mute_app_on_all_devices`: an error exactly when no
endpoint succeeded. -/
def mute_app_on_all_devices_result (b : Bool) (process_id : Nat)
    (devices : List CaptureDevice) : Except String (List CaptureDevice) :=
  let r := mute_app_on_all_devices b process_id devices
  if r.1 then .ok r.2
  else .error "No active session found for process on any capture device"

/-- The body of `handle_mute_all` (src/audio/monitor.rs) once the default
capture endpoint resolved to index `i`: run `mute_all` on that endpoint
only; a `mute_all` failure (session enumeration) emits an Error event and
mutes nothing. -/
def handle_mute_all_on (devices : List CaptureDevice) (i : Nat) :
    Bool × List CaptureDevice :=
  match devices[i]? with
  | none => (true, devices)
  | some d =>
    match mute_all d with
    | none => (true, devices)
    | some d2 => (false, devices.set i d2)

/-- `handle_mute_all` from src/audio/monitor.rs: build a session manager
for the DEFAULT capture endpoint only (`defaultIdx` models
GetDefaultAudioEndpoint: the index of the default endpoint among the
capture endpoints, none when it fails) and run `mute_all` there via
`handle_mute_all_on`. The Bool records whether an Error event was
emitted: on a failed default-endpoint resolution, and also when
`mute_all` itself fails on session enumeration. -/
def handle_mute_all (defaultIdx : Option Nat)
    (devices : List CaptureDevice) : Bool × List CaptureDevice :=
  match defaultIdx with
  | none => (true, devices)
  | some i => handle_mute_all_on devices i

/-- Modelled from the claim wording of C7: mute-all applied per matching
session across ALL active capture endpoints. For comparison with
`handle_mute_all`. -/
def claimC7_mute_all (devices : List CaptureDevice) : List CaptureDevice :=
  devices.map (fun d => { d with sessions := mute_all_sessions d.sessions })

/-- A concrete session for the C7 counterexample. -/
def c7session : Session := ⟨5, true, true, false⟩

/-- Concrete capture endpoints for the C7 counterexample: the default
endpoint (index 0) has no sessions; a second endpoint has an active,
unmuted session of pid 5; session enumeration works on both. -/
def c7devices : List CaptureDevice := [⟨true, []⟩, ⟨true, [c7session]⟩]

/-- A session of pid 5 that is active but exposes no volume control, for
the second half of the C7 counterexample. -/
def c7lockedSession : Session := ⟨5, true, false, false⟩

/-- A single endpoint holding only `c7lockedSession`: mute(5) errors on
it although an active session of pid 5 exists. -/
def c7lockedDevices : List CaptureDevice := [⟨true, [c7lockedSession]⟩]

/-- A single endpoint whose session enumeration fails, for the
handle_mute_all error-path witness. -/
def c7badDevices : List CaptureDevice := [⟨false, [c7session]⟩]

/-! ## Bluetooth device name matching (src/bluetooth/control.rs) -/

/-- `MatchQuality` from src/bluetooth/control.rs (discriminants 0, 1, 2). -/
inductive MatchQuality where
  | NoMatch
  | Contains
  | Exact
deriving DecidableEq, Repr

/-- The Rust enum discriminant, carrier of the derived ordering. -/
def MatchQuality.toNat : MatchQuality → Nat
  | .NoMatch => 0
  | .Contains => 1
  | .Exact => 2

/-- The derived strict order on `MatchQuality` (discriminant order). -/
def MatchQuality.ltb (a b : MatchQuality) : Bool := a.toNat < b.toNat

/-- `normalize_name`: trim then lowercase. -/
def normalize_name (name : String) : String := toLowerStr (trimStr name)

/-- `check_name_match`: the target comes in already normalized, the
candidate is normalized here; exact equality beats substring containment
in either direction. -/
def check_name_match (target_normalized device_name : String) :
    MatchQuality :=
  if target_normalized == normalize_name device_name then .Exact
  else if containsStr target_normalized (normalize_name device_name)
      || containsStr (normalize_name device_name) target_normalized then
    .Contains
  else .NoMatch

/-- The scan loop of `find_matching_device` over the remaining candidate
names, carrying the best match so far: an Exact match returns
immediately, a Contains match replaces the best only when strictly
better, NoMatch is skipped. -/
def find_matching_loop (target_normalized : String)
    (best : Option (String × MatchQuality)) :
    List String → Option String
  | [] => best.map (fun p => p.1)
  | d :: rest =>
    match check_name_match target_normalized d with
    | .Exact => some d
    | .NoMatch => find_matching_loop target_normalized best rest
    | .Contains =>
      match best with
      | none => find_matching_loop target_normalized (some (d, .Contains)) rest
      | some bp =>
        if MatchQuality.ltb bp.2 .Contains then
          find_matching_loop target_normalized (some (d, .Contains)) rest
        else find_matching_loop target_normalized best rest

/-- `find_matching_device`: scan all enumerated device names (the Rust
code handles the first device before its loop, with the same logic as
each loop iteration); None models the DeviceNotFound error. -/
def find_matching_device (target_name : String) (devices : List String) :
    Option String :=
  find_matching_loop (normalize_name target_name) none devices

/-- The first candidate scoring Exact against the target. -/
def first_exact_match (target_name : String) (devices : List String) :
    Option String :=
  devices.find? (fun d =>
    check_name_match (normalize_name target_name) d == .Exact)

/-- The first candidate scoring Contains against the target. -/
def first_contains_match (target_name : String) (devices : List String) :
    Option String :=
  devices.find? (fun d =>
    check_name_match (normalize_name target_name) d == .Contains)

end BtSpec

namespace BtSpec

/-- One `log_attempt` step keeps the audit log within the 100-entry cap. -/
theorem log_attempt_length_le (log : List TerminationAttempt)
    (a : TerminationAttempt) (h : log.length ≤ 100) :
    (log_attempt log a).length ≤ 100 := by
  simp only [log_attempt]
  split
  · rename_i hgt
    simp only [List.length_tail, List.length_append, List.length_singleton]
    omega
  · rename_i hgt
    simp only [gt_iff_lt, not_lt, List.length_append, List.length_singleton]
      at hgt ⊢
    omega

/-- Any audit log reachable by a sequence of `log_attempt` appends from a
log within the cap stays within the cap. -/
theorem log_attempt_foldl_length_le (attempts : List TerminationAttempt)
    (log : List TerminationAttempt) (h : log.length ≤ 100) :
    (attempts.foldl log_attempt log).length ≤ 100 := by
  induction attempts generalizing log with
  | nil => simpa using h
  | cons a rest ih =>
      simpa using ih (log_attempt log a) (log_attempt_length_le log a h)

/-- C2: the blacklist test is exact case-insensitive match. -/
theorem blacklist_exact_case_insensitive :
    (∀ name : String,
      is_blacklisted name = true ↔ toLowerStr name ∈ SYSTEM_PROCESS_BLACKLIST)
    ∧ is_blacklisted "csrss.exe" = true
    ∧ is_blacklisted "CSRSS.EXE" = true
    ∧ is_blacklisted "my_csrss.exe" = false
    ∧ is_blacklisted "csrss.exe.bak" = false := by
  refine ⟨fun name => ?_, by decide, by decide, by decide, by decide⟩
  simp [is_blacklisted, List.any_eq_true]

/-- C5: the format heuristic maps (rate, channels) to HandsFree exactly when
the rate is at most 16000 or the channel count is 1, otherwise Stereo, and
is Unknown when either component is absent. -/
theorem detect_mode_from_format_spec :
    (∀ rate ch : Nat,
      detect_mode_from_format (some rate) (some ch) =
        if rate ≤ 16000 ∨ ch = 1 then AudioMode.HandsFree else AudioMode.Stereo)
    ∧ detect_mode_from_format (some 16000) (some 1) = AudioMode.HandsFree
    ∧ detect_mode_from_format (some 48000) (some 2) = AudioMode.Stereo
    ∧ detect_mode_from_format (some 44100) (some 1) = AudioMode.HandsFree
    ∧ (∀ ch, detect_mode_from_format none ch = AudioMode.Unknown)
    ∧ (∀ rate, detect_mode_from_format (some rate) none = AudioMode.Unknown) := by
  refine ⟨fun rate ch => ?_, by decide, by decide, by decide,
    fun ch => by cases ch <;> rfl, fun rate => rfl⟩
  by_cases h : rate ≤ 16000 ∨ ch = 1
  · have hb : (rate ≤ 16000 || ch == 1) = true := by
      rcases h with h | h <;> simp [h]
    simp [detect_mode_from_format, hb, h]
  · have hb : (rate ≤ 16000 || ch == 1) = false := by
      push_neg at h
      simp only [Bool.or_eq_false_iff, decide_eq_false_iff_not, not_le,
        beq_eq_false_iff_ne, ne_eq]
      exact ⟨by omega, h.2⟩
    simp [detect_mode_from_format, hb, h]

/-- C8: the audit log never exceeds 100 entries; appending to a full log of
100 entries evicts the oldest entry (FIFO), appending to a shorter log is a
plain append, and any log built by appends from empty stays within the cap. -/
theorem audit_log_ring_buffer :
    (∀ (log : List TerminationAttempt) (a : TerminationAttempt),
      log.length ≤ 100 →
        (log_attempt log a).length ≤ 100
        ∧ (log.length = 100 → log_attempt log a = log.tail ++ [a])
        ∧ (log.length < 100 → log_attempt log a = log ++ [a]))
    ∧ (∀ attempts : List TerminationAttempt,
        (attempts.foldl log_attempt []).length ≤ 100) := by
  constructor
  · intro log a h
    refine ⟨log_attempt_length_le log a h, fun h100 => ?_, fun hlt => ?_⟩
    · have hgt : (log ++ [a]).length > 100 := by
        simp only [List.length_append, List.length_singleton, h100]
        omega
      simp only [log_attempt, if_pos hgt]
      cases log with
      | nil => simp at h100
      | cons x xs => simp
    · have hle : ¬ (log ++ [a]).length > 100 := by
        simp only [gt_iff_lt, not_lt, List.length_append, List.length_singleton]
        omega
      simp only [log_attempt, if_neg hle]
  · intro attempts
    exact log_attempt_foldl_length_le attempts [] (by simp)

/-- Witness for C8 at a full log of 100 entries. -/
theorem audit_log_ring_buffer_witness :
    (log_attempt (List.replicate 100 sampleAttempt) sampleAttempt).length ≤ 100
    ∧ log_attempt (List.replicate 100 sampleAttempt) sampleAttempt =
        (List.replicate 100 sampleAttempt).tail ++ [sampleAttempt] := by
  have h := audit_log_ring_buffer.1 (List.replicate 100 sampleAttempt)
    sampleAttempt (by simp)
  exact ⟨h.1, h.2.1 (by simp)⟩

/-- C1: whenever the pid is absent from the current mic-using snapshot,
`terminate_process` returns a validation failure, records exactly one
Blocked audit entry, and performs neither a termination nor an elevation,
regardless of whether the pid names a real process. -/
theorem terminate_blocked_when_not_in_mic_list
    (env : ProcEnv) (pid : Nat) (show_dialog : Bool)
    (h : ∀ app ∈ env.micApps, app.process_id ≠ pid) :
    exceptIsErr (terminate_process env pid show_dialog).result = true
    ∧ (terminate_process env pid show_dialog).log.map (·.outcome) =
        [TerminationOutcome.Blocked]
    ∧ (terminate_process env pid show_dialog).actions = [] := by
  have hmic : (env.micApps.any fun app => app.process_id == pid) = false := by
    simp only [List.any_eq_false]
    intro app hap
    simpa using h app hap
  unfold terminate_process
  cases hn : validate_termination env pid with
  | error e => simp [exceptIsErr]
  | ok v =>
    exfalso
    unfold validate_termination at hn
    cases hn2 : get_process_name env.procs pid with
    | none => rw [hn2] at hn; cases hn
    | some name =>
      rw [hn2] at hn
      by_cases hb : is_blacklisted name = true
      · simp [hb] at hn
      · by_cases hs : env.isSystem pid = true
        · simp [hb, hs] at hn
        · simp [hb, hs, hmic] at hn

/-- Witness for C1: pid 7 is in the process list but not in the mic list. -/
theorem terminate_blocked_witness :
    exceptIsErr (terminate_process sampleEnv 7 true).result = true
    ∧ (terminate_process sampleEnv 7 true).log.map (·.outcome) =
        [TerminationOutcome.Blocked]
    ∧ (terminate_process sampleEnv 7 true).actions = [] :=
  terminate_blocked_when_not_in_mic_list sampleEnv 7 true
    (by simp [sampleEnv])

/-- C3: the elevated invocation trusts nothing: TerminateProcess is reached
only if the freshly enumerated mic list contains the pid with a
non-blacklisted name, the SID check does not flag SYSTEM, and the user
confirms again; every failed re-check yields an error (user decline yields
Ok) with no termination performed. -/
theorem elevated_revalidates_from_scratch
    (ndOk : Bool) (mres : Option (List MicUsingApp))
    (isSys confirm canOpen termOk : Bool) (pid : Nat) :
    (TermAction.terminate pid ∈
        (handle_elevated_termination ndOk mres isSys confirm canOpen termOk
          pid).2 →
      ndOk = true
      ∧ (∃ app ∈ mres.getD [], app.process_id = pid
          ∧ is_blacklisted app.process_name = false)
      ∧ isSys = false ∧ confirm = true)
    ∧ (ndOk = false →
        exceptIsErr (handle_elevated_termination ndOk mres isSys confirm
          canOpen termOk pid).1 = true
        ∧ (handle_elevated_termination ndOk mres isSys confirm canOpen
            termOk pid).2 = [])
    ∧ ((∀ app ∈ mres.getD [], app.process_id ≠ pid) → ndOk = true →
        exceptIsErr (handle_elevated_termination ndOk mres isSys confirm
          canOpen termOk pid).1 = true
        ∧ (handle_elevated_termination ndOk mres isSys confirm canOpen
            termOk pid).2 = [])
    ∧ (∀ app, (mres.getD []).find? (fun a => a.process_id == pid) = some app →
        is_blacklisted app.process_name = true →
        exceptIsErr (handle_elevated_termination ndOk mres isSys confirm
          canOpen termOk pid).1 = true
        ∧ (handle_elevated_termination ndOk mres isSys confirm canOpen
            termOk pid).2 = [])
    ∧ (isSys = true →
        (handle_elevated_termination ndOk mres isSys confirm canOpen
          termOk pid).2 = [])
    ∧ (confirm = false →
        (handle_elevated_termination ndOk mres isSys confirm canOpen
          termOk pid).2 = []) := by
  refine ⟨?_, ?_, ?_, ?_, ?_, ?_⟩
  · intro hmem
    unfold handle_elevated_termination at hmem
    by_cases hnd : ndOk = true
    · rw [if_pos hnd] at hmem
      cases hfind : (mres.getD []).find?
          (fun app => app.process_id == pid) with
      | none => rw [hfind] at hmem; simp at hmem
      | some app =>
        rw [hfind] at hmem
        by_cases hb : is_blacklisted app.process_name = true
        · simp [hb] at hmem
        · by_cases hs : isSys = true
          · simp [hb, hs] at hmem
          · by_cases hc : confirm = true
            · refine ⟨hnd, ⟨app, List.mem_of_find?_eq_some hfind, ?_,
                by simpa using hb⟩, by simpa using hs, hc⟩
              have := List.find?_some hfind
              simpa using this
            · simp [hb, hs, hc] at hmem
    · rw [if_neg hnd] at hmem
      simp at hmem
  · intro hnd
    subst hnd
    simp [handle_elevated_termination, exceptIsErr]
  · intro hnone hnd
    subst hnd
    have hfind : (mres.getD []).find? (fun app => app.process_id == pid)
        = none := by
      rw [List.find?_eq_none]
      intro app hap
      simpa using hnone app hap
    simp [handle_elevated_termination, hfind, exceptIsErr]
  · intro app hfind hb
    unfold handle_elevated_termination
    by_cases hnd : ndOk = true
    · rw [if_pos hnd]
      have hfind2 : (mres.getD []).find? (fun app => app.process_id == pid)
          = some app := hfind
      rw [hfind2]
      simp [hb, exceptIsErr]
    · rw [if_neg hnd]
      simp [exceptIsErr]
  · intro hs
    subst hs
    unfold handle_elevated_termination
    by_cases hnd : ndOk = true
    · rw [if_pos hnd]
      cases hfind : (mres.getD []).find?
          (fun app => app.process_id == pid) with
      | none => rfl
      | some app =>
        by_cases hb : is_blacklisted app.process_name = true
        · simp [hb]
        · simp [hb]
    · rw [if_neg hnd]
  · intro hc
    subst hc
    unfold handle_elevated_termination
    by_cases hnd : ndOk = true
    · rw [if_pos hnd]
      cases hfind : (mres.getD []).find?
          (fun app => app.process_id == pid) with
      | none => rfl
      | some app =>
        by_cases hb : is_blacklisted app.process_name = true
        · simp [hb]
        · by_cases hs : isSys = true
          · simp [hb, hs]
          · simp [hb, hs]
    · rw [if_neg hnd]

/-- Witness for C3: with a fresh list not containing pid 9, the elevated
invocation refuses and performs nothing. -/
theorem elevated_revalidates_witness :
    exceptIsErr (handle_elevated_termination true (some sampleMicApps) false
      true true true 9).1 = true
    ∧ (handle_elevated_termination true (some sampleMicApps) false true true
        true 9).2 = [] :=
  (elevated_revalidates_from_scratch true (some sampleMicApps) false true
    true true 9).2.2.1 (by simp [sampleMicApps]) rfl

/-- The HFP scan returns the first successful Bluetooth meter reading,
compared against one channel. -/
theorem hfp_mode_eq_head (eps : List RenderEndpoint) :
    is_bluetooth_device_in_hfp_mode eps =
      (bt_meter_readings eps).head?.map (fun c => c == 1) := by
  induction eps with
  | nil => rfl
  | cons ep rest ih =>
    simp only [is_bluetooth_device_in_hfp_mode, bt_meter_readings,
      List.filterMap_cons]
    cases hd : device_to_audio_device ep.raw with
    | none => simpa [bt_meter_readings] using ih
    | some ad =>
      by_cases hb : ad.is_bluetooth = true
      · cases hm : ep.meter with
        | none => simpa [hb, hm, bt_meter_readings] using ih
        | some c => simp [hb, hm]
      · simpa [hb, bt_meter_readings] using ih

/-- Counterexample to C4 as stated: with a first Bluetooth endpoint whose
meter read fails and a second one reading one channel, and no Bluetooth
mic in use, the code answers HandsFree while the claim prescribes the
fallback answer Stereo. -/
theorem poll_mode_claim_counterexample :
    (poll_audio_state c4eps []).1 = AudioMode.HandsFree
    ∧ claimC4_mode c4eps [] = AudioMode.Stereo
    ∧ (poll_audio_state c4eps []).1 ≠ claimC4_mode c4eps [] := by decide

/-- C4 (amended): the mode is Unknown with no Bluetooth render endpoint;
otherwise the FIRST SUCCESSFUL Bluetooth meter reading decides (1 channel
= HandsFree, any other count = Stereo); only when no Bluetooth endpoint
yields a meter reading does the mode fall back to HandsFree exactly when
some mic-using app has is_using_bluetooth_mic. -/
theorem poll_mode_priority (eps : List RenderEndpoint)
    (mic_apps : List MicUsingApp) :
    (poll_audio_state eps mic_apps).1 =
      if (get_bluetooth_devices eps).isEmpty then AudioMode.Unknown
      else
        match (bt_meter_readings eps).head? with
        | some c => if c = 1 then AudioMode.HandsFree else AudioMode.Stereo
        | none =>
          if mic_apps.any (fun app => app.is_using_bluetooth_mic) then
            AudioMode.HandsFree
          else AudioMode.Stereo := by
  show poll_mode eps mic_apps = _
  unfold poll_mode
  rw [hfp_mode_eq_head]
  by_cases he : (get_bluetooth_devices eps).isEmpty = true
  · simp [he]
  · cases hh : (bt_meter_readings eps).head? with
    | none => simp [he, hh]
    | some c =>
      by_cases hc : c = 1
      · simp [he, hh, hc]
      · have hcb : (c == 1) = false := by simpa using hc
        simp [he, hh, hcb, hc]

/-- Counterexample to C9 as stated: an endpoint whose format read fails is
NOT skipped from the list returned by enumerate_devices_with_format; it is
kept with default fields. -/
theorem enumeration_claim_counterexample :
    enumerate_devices_with_format c9eps ≠ claimC9_enumerate c9eps
    ∧ (enumerate_devices_with_format c9eps).length = 1
    ∧ (claimC9_enumerate c9eps).length = 0 := by decide

/-- C9 (amended): per-endpoint read failures are non-fatal and never abort
the enumeration: enumeration distributes over concatenation of the
endpoint list; an endpoint whose format read fails is still returned,
with no format info and Unknown mode; and in the meter-based HFP scan an
endpoint whose meter read fails is skipped and the scan continues. -/
theorem enumeration_skip_nonfatal :
    (∀ xs ys : List RenderEndpoint,
      enumerate_devices_with_format (xs ++ ys) =
        enumerate_devices_with_format xs ++ enumerate_devices_with_format ys)
    ∧ (∀ (ep : RenderEndpoint) (idn : String × String),
        ep.raw = some idn → ep.format = none →
        enumerate_devices_with_format [ep] =
          [BluetoothAudioDevice.new
            ⟨idn.1, idn.2, classify_bluetooth idn.1 idn.2⟩])
    ∧ (∀ (ep : RenderEndpoint) (rest : List RenderEndpoint),
        ep.meter = none →
        is_bluetooth_device_in_hfp_mode (ep :: rest) =
          is_bluetooth_device_in_hfp_mode rest) := by
  refine ⟨fun xs ys => List.filterMap_append xs ys _, fun ep idn h1 h2 => ?_,
    fun ep rest hm => ?_⟩
  · simp [enumerate_devices_with_format, h1, h2, device_to_audio_device,
      BluetoothAudioDevice.new]
  · simp only [is_bluetooth_device_in_hfp_mode]
    cases hd : device_to_audio_device ep.raw with
    | none => rfl
    | some ad =>
      by_cases hb : ad.is_bluetooth = true
      · simp [hb, hm]
      · simp [hb]

/-- Witness for C9 (amended) at a concrete endpoint with a failing format
and meter read. -/
theorem enumeration_skip_nonfatal_witness :
    enumerate_devices_with_format [⟨some ("bth1", "devA"), none, none⟩] =
      [BluetoothAudioDevice.new
        ⟨"bth1", "devA", classify_bluetooth "bth1" "devA"⟩]
    ∧ is_bluetooth_device_in_hfp_mode
        [⟨some ("bth1", "devA"), none, none⟩] =
      is_bluetooth_device_in_hfp_mode [] :=
  ⟨enumeration_skip_nonfatal.2.1 ⟨some ("bth1", "devA"), none, none⟩
      ("bth1", "devA") rfl rfl,
    enumeration_skip_nonfatal.2.2 ⟨some ("bth1", "devA"), none, none⟩ []
      rfl⟩

/-- Each per-iteration event list of the monitor trace is the step at the
tracked last mode. -/
theorem monitor_trace_getD (polls : List (Option AudioMode)) :
    ∀ (start : AudioMode) (i : Nat), i < polls.length →
      (monitor_trace start polls).getD i [] =
        (monitor_step (last_mode_after start (polls.take i))
          (polls.getD i none)).2 := by
  induction polls with
  | nil => intro start i h; simp at h
  | cons p ps ih =>
    intro start i h
    cases i with
    | zero => simp [monitor_trace, last_mode_after]
    | succ j =>
      simp only [monitor_trace, List.getD_cons_succ, List.take_succ_cons,
        last_mode_after]
      exact ih _ j (by simpa using h)

/-- C6: in any poll sequence starting from the initial Unknown mode, a
ModeChanged event is emitted at step i exactly when the poll succeeded
with a mode different from the tracked previous mode and that previous
mode was not Unknown; in particular no ModeChanged is ever emitted while
the previous mode is Unknown. -/
theorem mode_changed_iff (polls : List (Option AudioMode)) (i : Nat)
    (h : i < polls.length) :
    (∀ o n, MonitorEvent.ModeChanged o n ∈
        (monitor_trace AudioMode.Unknown polls).getD i [] →
      o = last_mode_after AudioMode.Unknown (polls.take i)
      ∧ polls.getD i none = some n
      ∧ o ≠ AudioMode.Unknown ∧ n ≠ o)
    ∧ (∀ n, polls.getD i none = some n →
        n ≠ last_mode_after AudioMode.Unknown (polls.take i) →
        last_mode_after AudioMode.Unknown (polls.take i) ≠
          AudioMode.Unknown →
        MonitorEvent.ModeChanged
            (last_mode_after AudioMode.Unknown (polls.take i)) n ∈
          (monitor_trace AudioMode.Unknown polls).getD i []) := by
  rw [monitor_trace_getD polls _ i h]
  constructor
  · intro o n hmem
    cases hp : polls.getD i none with
    | none =>
      rw [hp] at hmem
      simp [monitor_step] at hmem
    | some m =>
      rw [hp] at hmem
      by_cases hcond : m ≠ last_mode_after AudioMode.Unknown (polls.take i)
          ∧ last_mode_after AudioMode.Unknown (polls.take i) ≠
            AudioMode.Unknown
      · simp only [monitor_step, if_pos hcond, List.mem_append,
          List.mem_singleton, List.mem_cons, List.not_mem_nil,
          or_false] at hmem
        rcases hmem with hmem | hmem
        · obtain ⟨ho, hn⟩ := MonitorEvent.ModeChanged.inj hmem
          exact ⟨ho, by rw [hn], ho ▸ hcond.2, by rw [ho, hn]; exact hcond.1⟩
        · cases hmem
      · simp [monitor_step, if_neg hcond] at hmem
  · intro n hp hn hu
    rw [hp]
    simp [monitor_step, hn, hu]

/-- Witness for C6 at the poll sequence [Stereo, HandsFree]: the second
poll emits ModeChanged Stereo HandsFree. -/
theorem mode_changed_iff_witness :
    MonitorEvent.ModeChanged AudioMode.Stereo AudioMode.HandsFree ∈
      (monitor_trace AudioMode.Unknown samplePolls).getD 1 [] :=
  (mode_changed_iff samplePolls 1 (by decide)).2 AudioMode.HandsFree
    (by decide) (by decide) (by decide)

/-- The per-endpoint session walk fails exactly when the endpoint has no
active session of the pid, or its first active session of the pid exposes
no volume control. -/
theorem mute_app_walk_none_iff (b : Bool) (pid : Nat) (l : List Session) :
    mute_app_walk b pid l = none ↔
      (∀ s ∈ l, ¬(s.active = true ∧ s.pid = pid))
      ∨ ∃ s, l.find? (fun s => s.active && s.pid == pid) = some s
          ∧ s.canMute = false := by
  induction l with
  | nil => simp [mute_app_walk]
  | cons s rest ih =>
    by_cases hsp : (s.active && s.pid == pid) = true
    · have hfind : List.find? (fun s => s.active && s.pid == pid) (s :: rest)
          = some s := List.find?_cons_of_pos _ hsp
      have hsp2 : s.active = true ∧ s.pid = pid := by simpa using hsp
      simp only [mute_app_walk, if_pos hsp, set_muted]
      by_cases hcm : s.canMute = true
      · rw [if_pos hcm]
        constructor
        · intro h; cases h
        · intro h
          rcases h with h | ⟨t, hft, htc⟩
          · exact absurd hsp2 (h s (by simp))
          · rw [hfind] at hft
            cases hft
            rw [hcm] at htc
            cases htc
      · have hcm2 : s.canMute = false := by simpa using hcm
        rw [if_neg hcm]
        constructor
        · intro _
          exact Or.inr ⟨s, hfind, hcm2⟩
        · intro _
          rfl
    · have hfind : List.find? (fun s => s.active && s.pid == pid) (s :: rest)
          = List.find? (fun s => s.active && s.pid == pid) rest :=
        List.find?_cons_of_neg _ (by simpa using hsp)
      have hsp2 : ¬(s.active = true ∧ s.pid = pid) := by
        intro hcontra
        exact hsp (by simp [hcontra.1, hcontra.2])
      simp only [mute_app_walk, if_neg hsp]
      rw [Option.map_eq_none']
      rw [ih, hfind]
      constructor
      · intro h
        rcases h with h | h
        · refine Or.inl ?_
          intro t ht
          rcases List.mem_cons.mp ht with rfl | ht2
          · exact hsp2
          · exact h t ht2
        · exact Or.inr h
      · intro h
        rcases h with h | h
        · exact Or.inl (fun t ht => h t (List.mem_cons_of_mem _ ht))
        · exact Or.inr h

/-- The all-devices mute reports failure exactly when every endpoint
failed. -/
theorem mute_app_on_all_devices_flag (b : Bool) (pid : Nat)
    (devices : List CaptureDevice) :
    (mute_app_on_all_devices b pid devices).1 = false ↔
      ∀ d ∈ devices, mute_app_on_device b pid d = none := by
  induction devices with
  | nil => simp [mute_app_on_all_devices]
  | cons d rest ih =>
    simp only [mute_app_on_all_devices]
    cases hm : mute_app_on_device b pid d with
    | some d2 =>
      simp only []
      constructor
      · intro hcontra; cases hcontra
      · intro hall
        exact absurd hm (by simp [hall d (by simp)])
    | none =>
      simp only []
      rw [ih]
      constructor
      · intro hall t ht
        rcases List.mem_cons.mp ht with rfl | ht2
        · exact hm
        · exact hall t ht2
      · intro hall t ht
        exact hall t (List.mem_cons_of_mem _ ht)

/-- Counterexample to C7 as stated, in both directions: `handle_mute_all`
builds a session manager for the default capture endpoint only, so an
active session on a second endpoint stays unmuted while the claim
prescribes muting matching sessions on every endpoint; and mute(5) errors
on an endpoint holding an active session of pid 5 with no volume control,
although the claim says an error happens exactly when no active session
for the pid exists on any endpoint. -/
theorem mute_all_claim_counterexample :
    (handle_mute_all (some 0) c7devices).2 ≠ claimC7_mute_all c7devices
    ∧ (handle_mute_all (some 0) c7devices).2 = c7devices
    ∧ claimC7_mute_all c7devices =
        [⟨true, []⟩, ⟨true, [⟨5, true, true, true⟩]⟩]
    ∧ exceptIsErr (mute_app_on_all_devices_result true 5 c7lockedDevices)
        = true
    ∧ c7lockedSession.active = true ∧ c7lockedSession.pid = 5
    ∧ c7lockedDevices = [⟨true, [c7lockedSession]⟩] := by decide

/-- C7 (amended): mute(pid)/unmute(pid) try every capture endpoint and
return an error exactly when every endpoint fails, where one endpoint
fails exactly when its session enumeration fails, or it has no active
session of the pid, or the first such session exposes no volume control;
mute_all, as invoked by the monitor's MuteAll command, acts on the
default capture endpoint only: it reports an error (Error event) when the
default endpoint does not resolve or its session enumeration fails, and
otherwise best-effort mutes that endpoint's active nonzero-pid sessions,
leaving every other endpoint untouched. -/
theorem mute_ops_scope :
    (∀ (b : Bool) (pid : Nat) (devices : List CaptureDevice),
      exceptIsErr (mute_app_on_all_devices_result b pid devices) = true ↔
        ∀ d ∈ devices, mute_app_on_device b pid d = none)
    ∧ (∀ (b : Bool) (pid : Nat) (d : CaptureDevice),
        mute_app_on_device b pid d = none ↔
          d.enumOk = false
          ∨ (∀ s ∈ d.sessions, ¬(s.active = true ∧ s.pid = pid))
          ∨ ∃ s, d.sessions.find? (fun s => s.active && s.pid == pid)
              = some s ∧ s.canMute = false)
    ∧ (∀ devices : List CaptureDevice,
        handle_mute_all none devices = (true, devices))
    ∧ (∀ (devices : List CaptureDevice) (i : Nat) (d : CaptureDevice),
        devices[i]? = some d → d.enumOk = false →
        handle_mute_all (some i) devices = (true, devices))
    ∧ (∀ (devices : List CaptureDevice) (i : Nat) (d : CaptureDevice),
        devices[i]? = some d → d.enumOk = true →
        (handle_mute_all (some i) devices).1 = false
        ∧ ((handle_mute_all (some i) devices).2)[i]? =
            some ⟨true, mute_all_sessions d.sessions⟩
        ∧ ∀ j : Nat, i ≠ j →
            ((handle_mute_all (some i) devices).2)[j]? = devices[j]?) := by
  refine ⟨fun b pid devices => ?_, fun b pid d => ?_, fun devices => rfl,
    fun devices i d hget henum => ?_, fun devices i d hget henum => ?_⟩
  · unfold mute_app_on_all_devices_result
    cases hflag : (mute_app_on_all_devices b pid devices).1 with
    | true =>
      rw [if_pos hflag]
      constructor
      · intro hcontra; cases hcontra
      · intro hall
        have := (mute_app_on_all_devices_flag b pid devices).mpr hall
        rw [hflag] at this
        cases this
    | false =>
      rw [if_neg (by simp [hflag])]
      have hiff := mute_app_on_all_devices_flag b pid devices
      rw [hflag] at hiff
      simp only [true_iff] at hiff
      constructor
      · intro _; exact hiff
      · intro _; rfl
  · unfold mute_app_on_device
    by_cases henum : d.enumOk = true
    · rw [if_pos henum]
      rw [Option.map_eq_none']
      rw [mute_app_walk_none_iff]
      constructor
      · intro h
        rcases h with h | h
        · exact Or.inr (Or.inl h)
        · exact Or.inr (Or.inr h)
      · intro h
        rcases h with h | h | h
        · rw [henum] at h; cases h
        · exact Or.inl h
        · exact Or.inr h
    · have henum2 : d.enumOk = false := by simpa using henum
      rw [if_neg henum]
      constructor
      · intro _; exact Or.inl henum2
      · intro _; rfl
  · have hma : mute_all d = none := by
      unfold mute_all
      rw [if_neg (by simp [henum])]
    show handle_mute_all_on devices i = (true, devices)
    unfold handle_mute_all_on
    rw [hget]
    show (match mute_all d with
      | none => (true, devices)
      | some d2 => (false, devices.set i d2)) = (true, devices)
    rw [hma]
  · have hmut : mute_all d = some ⟨true, mute_all_sessions d.sessions⟩ := by
      unfold mute_all
      rw [if_pos henum, henum]
    have hlt : i < devices.length := by
      by_contra hge
      push_neg at hge
      rw [List.getElem?_eq_none hge] at hget
      cases hget
    have hrun : handle_mute_all (some i) devices =
        (false, devices.set i ⟨true, mute_all_sessions d.sessions⟩) := by
      show handle_mute_all_on devices i = _
      unfold handle_mute_all_on
      rw [hget]
      show (match mute_all d with
        | none => (true, devices)
        | some d2 => (false, devices.set i d2)) =
          (false, devices.set i ⟨true, mute_all_sessions d.sessions⟩)
      rw [hmut]
    refine ⟨by rw [hrun], ?_, ?_⟩
    · rw [hrun]
      exact List.getElem?_set_eq_of_lt _ hlt
    · intro j hij
      rw [hrun]
      exact List.getElem?_set_ne hij

/-- Witness for C7 (amended): mute_all on an endpoint with failing
session enumeration reports an error and touches nothing; on the
two-endpoint state it succeeds on the default endpoint and leaves the
second endpoint untouched. -/
theorem mute_ops_scope_witness :
    handle_mute_all (some 0) c7badDevices = (true, c7badDevices)
    ∧ (handle_mute_all (some 0) c7devices).1 = false
    ∧ ((handle_mute_all (some 0) c7devices).2)[0]? =
        some ⟨true, mute_all_sessions []⟩
    ∧ ((handle_mute_all (some 0) c7devices).2)[1]? = c7devices[1]? :=
  ⟨mute_ops_scope.2.2.2.1 c7badDevices 0 ⟨false, [c7session]⟩ rfl rfl,
    (mute_ops_scope.2.2.2.2 c7devices 0 ⟨true, []⟩ rfl rfl).1,
    (mute_ops_scope.2.2.2.2 c7devices 0 ⟨true, []⟩ rfl rfl).2.1,
    (mute_ops_scope.2.2.2.2 c7devices 0 ⟨true, []⟩ rfl rfl).2.2 1
      (by decide)⟩

/-- The scan loop returns the first Exact match when one exists, else the
Contains match tracked as best-so-far (the first one, since a later
Contains is never strictly better). -/
theorem find_matching_loop_spec (t : String) (ds : List String) :
    (find_matching_loop t none ds =
      Option.orElse (ds.find? (fun d => check_name_match t d == .Exact))
        (fun _ => ds.find? (fun d => check_name_match t d == .Contains)))
    ∧ ∀ b : String, find_matching_loop t (some (b, .Contains)) ds =
        Option.orElse (ds.find? (fun d => check_name_match t d == .Exact))
          (fun _ => some b) := by
  induction ds with
  | nil => simp [find_matching_loop, Option.orElse]
  | cons d rest ih =>
    cases hq : check_name_match t d with
    | Exact =>
      constructor
      · rw [find_matching_loop, hq,
          List.find?_cons_of_pos _ (by simp [hq])]
        rfl
      · intro b
        rw [find_matching_loop, hq,
          List.find?_cons_of_pos _ (by simp [hq])]
        rfl
    | NoMatch =>
      constructor
      · rw [find_matching_loop, hq,
          List.find?_cons_of_neg _ (by simp [hq]),
          List.find?_cons_of_neg _ (by simp [hq])]
        exact ih.1
      · intro b
        rw [find_matching_loop, hq,
          List.find?_cons_of_neg _ (by simp [hq])]
        exact ih.2 b
    | Contains =>
      constructor
      · rw [find_matching_loop, hq,
          List.find?_cons_of_neg _ (by simp [hq]),
          List.find?_cons_of_pos _ (by simp [hq])]
        rw [ih.2 d]
      · intro b
        rw [find_matching_loop, hq,
          List.find?_cons_of_neg _ (by simp [hq])]
        have hlt : MatchQuality.ltb MatchQuality.Contains
            MatchQuality.Contains = false := by decide
        rw [hlt]
        simp only [Bool.false_eq_true, if_false]
        exact ih.2 b

/-- C10: check_name_match on normalized names is Exact exactly on
equality, Contains exactly on proper substring containment in either
direction, NoMatch otherwise; the MatchQuality order is total with
Exact above Contains above NoMatch; find_matching_device returns the
first Exact match when one exists, else the first Contains match, and
fails (device not found) when no candidate matches; the spec examples
hold. -/
theorem name_matching_spec :
    (∀ target device : String,
      (check_name_match (normalize_name target) device = .Exact ↔
        normalize_name target = normalize_name device)
      ∧ (check_name_match (normalize_name target) device = .Contains ↔
        normalize_name target ≠ normalize_name device
        ∧ (containsStr (normalize_name target) (normalize_name device) = true
          ∨ containsStr (normalize_name device) (normalize_name target)
            = true))
      ∧ (check_name_match (normalize_name target) device = .NoMatch ↔
        normalize_name target ≠ normalize_name device
        ∧ containsStr (normalize_name target) (normalize_name device) = false
        ∧ containsStr (normalize_name device) (normalize_name target)
          = false))
    ∧ (MatchQuality.ltb .NoMatch .Contains = true
      ∧ MatchQuality.ltb .Contains .Exact = true
      ∧ MatchQuality.ltb .NoMatch .Exact = true
      ∧ ∀ a b : MatchQuality,
          a = b ∨ MatchQuality.ltb a b = true ∨ MatchQuality.ltb b a = true)
    ∧ (∀ (target : String) (devices : List String),
        find_matching_device target devices =
          Option.orElse (first_exact_match target devices)
            (fun _ => first_contains_match target devices))
    ∧ (∀ (target : String) (devices : List String),
        (∀ d ∈ devices,
          check_name_match (normalize_name target) d = .NoMatch) →
        find_matching_device target devices = none)
    ∧ check_name_match (normalize_name "sony wh-1000xm4") "Sony WH-1000XM4"
        = .Exact
    ∧ check_name_match (normalize_name "sony") "Sony WH-1000XM4" = .Contains
    ∧ check_name_match (normalize_name "bose") "Sony WH-1000XM4"
        = .NoMatch := by
  refine ⟨fun target device => ?_, ⟨by decide, by decide, by decide,
    fun a b => by cases a <;> cases b <;> simp [MatchQuality.ltb,
      MatchQuality.toNat]⟩, fun target devices =>
    (find_matching_loop_spec (normalize_name target) devices).1,
    fun target devices hall => ?_, by decide, by decide, by decide⟩
  · by_cases heq : normalize_name target = normalize_name device
    · simp [check_name_match, heq]
    · have hne : ¬ (normalize_name target == normalize_name device)
          = true := by simpa using heq
      by_cases hsub : (containsStr (normalize_name target)
          (normalize_name device)
          || containsStr (normalize_name device)
            (normalize_name target)) = true
      · unfold check_name_match
        rw [if_neg hne, if_pos hsub]
        refine ⟨⟨fun h => MatchQuality.noConfusion h, fun h => absurd h heq⟩,
          ⟨fun _ => ⟨heq, by simpa using hsub⟩, fun _ => rfl⟩,
          ⟨fun h => MatchQuality.noConfusion h, fun h => ?_⟩⟩
        rcases (by simpa using hsub :
            containsStr (normalize_name target) (normalize_name device)
              = true
            ∨ containsStr (normalize_name device) (normalize_name target)
              = true) with h2 | h2
        · rw [h.2.1] at h2; cases h2
        · rw [h.2.2] at h2; cases h2
      · unfold check_name_match
        rw [if_neg hne, if_neg hsub]
        have hsub2 : containsStr (normalize_name target)
            (normalize_name device) = false
            ∧ containsStr (normalize_name device) (normalize_name target)
              = false := by
          constructor <;> (rw [Bool.eq_false_iff]; intro hcontra) <;>
            exact hsub (by simp [hcontra])
        refine ⟨⟨fun h => MatchQuality.noConfusion h, fun h => absurd h heq⟩,
          ⟨fun h => MatchQuality.noConfusion h, fun h => ?_⟩,
          ⟨fun _ => ⟨heq, hsub2.1, hsub2.2⟩, fun _ => rfl⟩⟩
        rcases h.2 with h2 | h2
        · rw [hsub2.1] at h2; cases h2
        · rw [hsub2.2] at h2; cases h2
  · unfold find_matching_device
    rw [(find_matching_loop_spec (normalize_name target) devices).1]
    have hex : devices.find?
        (fun d => check_name_match (normalize_name target) d == .Exact)
        = none := by
      rw [List.find?_eq_none]
      intro d hd
      simp [hall d hd]
    have hco : devices.find?
        (fun d => check_name_match (normalize_name target) d == .Contains)
        = none := by
      rw [List.find?_eq_none]
      intro d hd
      simp [hall d hd]
    rw [hex, hco]
    rfl

/-- Witness for C10: with the single candidate Sony WH-1000XM4 and the
query bose, nothing matches and the lookup fails. -/
theorem name_matching_spec_witness :
    find_matching_device "bose" ["Sony WH-1000XM4"] = none :=
  name_matching_spec.2.2.2.1 "bose" ["Sony WH-1000XM4"] (by decide)

end BtSpec
